import Mathlib

/-!
Verification of the lila-player audio engine (`src/hooks/use-audio-processor.ts`
and `src/utils/audio-utils.ts`).

The definitions below are a shallow embedding of the playback/processing hook in
its current revision: the one with the delta-time progress clock
(`audioPositionRef`/`lastFrameTimeRef`/`playbackRateRef`), the time-stretched
export length (`Math.ceil(audioBuffer.length / settings.playbackRate)`), and the
Linux media-element output workaround.  JS numbers are modelled as `ℚ`, DOM/Web
Audio objects by the fields of their state that the engine reads and writes, and
the asynchronous handlers as pure state-transition functions.  React `useState`
setters and refs both become fields of `EngineState`; a `useEffect` that mirrors
a setting onto an audio node is folded into the corresponding setter, since it
runs before any further engine operation can observe the state.
-/

namespace LilaPlayer

/-- A decoded audio buffer (Web Audio `AudioBuffer`): per-channel sample arrays
(`getChannelData`), sample rate, and frame count (`AudioBuffer.length`). -/
structure SampleBuffer where
  channels : List (List ℚ)
  sampleRate : ℕ
  length : ℕ
deriving DecidableEq

/-- `AudioBuffer.numberOfChannels`. -/
def SampleBuffer.numberOfChannels (b : SampleBuffer) : ℕ := b.channels.length

/-- `AudioBuffer.duration = length / sampleRate` (seconds). -/
def SampleBuffer.duration (b : SampleBuffer) : ℚ :=
  (b.length : ℚ) / (b.sampleRate : ℚ)

/-- Every channel array has exactly `length` samples (true of every real
`AudioBuffer`, whose `getChannelData(c)` has length `AudioBuffer.length`). -/
def SampleBuffer.WellFormed (b : SampleBuffer) : Prop :=
  ∀ ch ∈ b.channels, ch.length = b.length

instance (b : SampleBuffer) : Decidable b.WellFormed := by
  unfold SampleBuffer.WellFormed; infer_instance

/-! ### `audioBufferToWav` (src/utils/audio-utils.ts)

The source writes header fields with `DataView` setters at consecutive offsets
0,4,8,12,16,20,22,24,28,32,34,36,40 and then the sample words from offset 44
upward; since each write starts exactly where the previous one ended, the
resulting byte array is the concatenation of the encoded fields, which is how
we build it here. -/

/-- Bytes of an ASCII tag, as written by `writeString` (`charCodeAt` per char). -/
def asciiBytes (s : String) : List ℕ := s.toList.map Char.toNat

/-- `DataView.setUint16(_, n, true)`: two little-endian bytes. -/
def u16le (n : ℕ) : List ℕ := [n % 256, n / 256 % 256]

/-- `DataView.setUint32(_, n, true)`: four little-endian bytes. -/
def u32le (n : ℕ) : List ℕ :=
  [n % 256, n / 256 % 256, n / 65536 % 256, n / 16777216 % 256]

/-- Truncation toward zero, the integer conversion JS applies to the number
passed to `DataView.setInt16`. -/
def ratTrunc (q : ℚ) : ℤ := if q < 0 then -⌊-q⌋ else ⌊q⌋

/-- `Math.max(-1, Math.min(1, s))` — clip a sample to [-1, 1]. -/
def clipSample (s : ℚ) : ℚ := max (-1) (min 1 s)

/-- The 16-bit sample value written for input sample `s`:
`sample < 0 ? sample * 0x8000 : sample * 0x7fff` after clipping, converted to an
integer by `setInt16`. -/
def quantizeSample (s : ℚ) : ℤ :=
  ratTrunc (if clipSample s < 0 then clipSample s * 32768 else clipSample s * 32767)

/-- `DataView.setInt16(_, v, true)`: the value wraps modulo 2^16 (two's
complement) and is stored as two little-endian bytes. -/
def i16le (v : ℤ) : List ℕ := u16le (v % 65536).toNat

/-- The interleaved sample sequence: entry `i * numberOfChannels + channel` is
`channelData[i]` of that channel, exactly as the interleaving loops fill the
`Float32Array` (here produced frame-major, which yields the same array). -/
def interleave (b : SampleBuffer) : List ℚ :=
  (List.range b.length).flatMap (fun i => b.channels.map (fun ch => ch.getD i 0))

/-- The 44 header bytes (RIFF/fmt/data headers) of `audioBufferToWav`. -/
def wavHeader (b : SampleBuffer) : List ℕ :=
  let numOfChannels := b.numberOfChannels
  let length := b.length * numOfChannels * 2 + 44
  asciiBytes "RIFF" ++ u32le (length - 8) ++ asciiBytes "WAVE" ++
  asciiBytes "fmt " ++ u32le 16 ++ u16le 1 ++ u16le numOfChannels ++
  u32le b.sampleRate ++ u32le (b.sampleRate * numOfChannels * 2) ++
  u16le (numOfChannels * 2) ++ u16le 16 ++
  asciiBytes "data" ++ u32le (length - 44)

/-- `audioBufferToWav` — header followed by the quantized interleaved samples. -/
def audioBufferToWav (b : SampleBuffer) : List ℕ :=
  wavHeader b ++ (interleave b).flatMap (fun s => i16le (quantizeSample s))

/-- Read one byte of a serialized array (0 past the end). -/
def readByte (l : List ℕ) (i : ℕ) : ℕ := l.getD i 0

/-- Decode a little-endian unsigned 16-bit field at offset `i`. -/
def readU16 (l : List ℕ) (i : ℕ) : ℕ := readByte l i + 256 * readByte l (i + 1)

/-- Decode a little-endian unsigned 32-bit field at offset `i`. -/
def readU32 (l : List ℕ) (i : ℕ) : ℕ :=
  readByte l i + 256 * readByte l (i + 1) + 65536 * readByte l (i + 2) +
    16777216 * readByte l (i + 3)

/-! ### Engine state (main hook `useAudioProcessor`)

Direct (Web Audio) output strategy of `use-audio-processor.ts`.  Source units
(`AudioBufferSourceNode`s) are identified by creation order: `started` lists the
ids of units that have been started and not yet stopped, and `tracked` is the
`sourceNode` React state (the unit the hook holds on to).  `hasContext` records
whether the `AudioContext` and its nodes have been created (the mount effect);
all gain nodes exist exactly when it does. -/

/-- The `settings` state object of the hook. -/
structure EngineSettings where
  playbackRate : ℚ
  volume : ℚ
  reverbLevel : ℚ
  vinylVolume : ℚ
  isLooping : Bool
deriving DecidableEq

/-- The engine's observable state: React state, refs, and audio-node params. -/
structure EngineState where
  hasContext : Bool
  audioBuffer : Option SampleBuffer
  reverbBuffer : Option SampleBuffer
  filename : Option String
  isWaveformLoading : Bool
  isSaving : Bool
  progress : ℚ
  settings : EngineSettings
  isPlaying : Bool
  durationRef : ℚ
  audioPositionRef : ℚ
  lastFrameTimeRef : ℚ
  playbackRateRef : ℚ
  animationFrameRef : Bool
  tracked : Option ℕ
  started : List ℕ
  nextId : ℕ
  gainValue : ℚ
  reverbGainValue : ℚ
  dryGainValue : ℚ
deriving DecidableEq

/-- Initial state: the hook's `useState` defaults (`playbackRate: 0.85`,
`volume: 85`, `reverbLevel: 40`, `vinylVolume: 50`, `isLooping: true`), zeroed
refs, no buffer, and freshly created gain nodes (gain 1). -/
def initialState : EngineState :=
  { hasContext := false
    audioBuffer := none
    reverbBuffer := none
    filename := none
    isWaveformLoading := false
    isSaving := false
    progress := 0
    settings :=
      { playbackRate := 17/20, volume := 85, reverbLevel := 40
        vinylVolume := 50, isLooping := true }
    isPlaying := false
    durationRef := 0
    audioPositionRef := 0
    lastFrameTimeRef := 0
    playbackRateRef := 17/20
    animationFrameRef := false
    tracked := none
    started := []
    nextId := 0
    gainValue := 1
    reverbGainValue := 1
    dryGainValue := 1 }

/-- `setVolume` plus the effect `nodes.gain.gain.value = settings.volume / 100`
(which runs only once the nodes exist). -/
def setVolume (st : EngineState) (v : ℚ) : EngineState :=
  let st1 := { st with settings.volume := v }
  if st1.hasContext then { st1 with gainValue := v / 100 } else st1

/-- `setPlaybackRate` plus the ref-sync effect
`playbackRateRef.current = settings.playbackRate` (and the effect that writes
the rate onto a live `sourceNode`). -/
def setPlaybackRate (st : EngineState) (r : ℚ) : EngineState :=
  let st1 := { st with settings.playbackRate := r }
  { st1 with playbackRateRef := st1.settings.playbackRate }

/-- `setReverbLevel` plus the effect that applies it to the graph:
`reverbGain.gain.value = reverbLevel / 100; dryGain.gain.value = 1 - reverbLevel / 100`
(both assignments in the same effect run). -/
def setReverbLevel (st : EngineState) (l : ℚ) : EngineState :=
  let st1 := { st with settings.reverbLevel := l }
  if st1.hasContext then
    { st1 with
      reverbGainValue := l / 100
      dryGainValue := 1 - l / 100 }
  else st1

/-- `toggleLoop`. -/
def toggleLoop (st : EngineState) : EngineState :=
  { st with settings.isLooping := !st.settings.isLooping }

/-- `stopAudio`: `sourceNode.stop(); sourceNode.disconnect();
setSourceNode(null); setIsPlaying(false)` — the tracked unit (if any) is halted
and released. -/
def stopAudio (st : EngineState) : EngineState :=
  { st with
    started :=
      match st.tracked with
      | some i => st.started.erase i
      | none => st.started
    tracked := none
    isPlaying := false }

/-- `playAudio(startTime)`: bails out when there is no context or no decoded
buffer; otherwise stops the previous unit via `stopAudio`, creates and starts a
new source unit (loop flag and playback rate applied, graph connected), and arms
the progress clock (`audioPositionRef = startTime;
lastFrameTimeRef = context.currentTime`).  The second component is the value the
`async` function delivers to its caller — always `none`, since every path
resolves with `undefined`. -/
def playAudio (st : EngineState) (now startTime : ℚ) :
    EngineState × Option String :=
  if !st.hasContext || st.audioBuffer.isNone then (st, none)
  else
    let st1 := stopAudio st
    ({ st1 with
        started := st1.nextId :: st1.started
        tracked := some st1.nextId
        nextId := st1.nextId + 1
        isPlaying := true
        audioPositionRef := startTime
        lastFrameTimeRef := now }, none)

/-- `handlePlayPause`: stop when playing, else play from the recorded
position (`progress * durationRef.current`). -/
def handlePlayPause (st : EngineState) (now : ℚ) : EngineState × Option String :=
  if st.isPlaying then (stopAudio st, none)
  else playAudio st now (st.progress * st.durationRef)

/-- `handleWaveformClick(clickedProgress)`: records the clicked fraction via
`setProgress` and then invokes `playAudio(clickedProgress * durationRef.current)`
unconditionally. -/
def handleWaveformClick (st : EngineState) (now clickedProgress : ℚ) :
    EngineState × Option String :=
  let st1 := { st with progress := clickedProgress }
  playAudio st1 now (clickedProgress * st.durationRef)

/-- `handleFileChange(file)` with the decode outcome made explicit: the handler
stops playback, sets the loading flag, and then either installs the decoded
buffer (success) or logs the error (`catch` branch) — in both cases clearing
the loading flag (`finally`) and resolving with `undefined` (second component
`none`: nothing is returned or rethrown to the caller). -/
def handleFileChange (st : EngineState) (name : String)
    (decoded : Except String SampleBuffer) : EngineState × Option String :=
  if !st.hasContext then (st, none)
  else
    let st1 := stopAudio st
    let st2 := { st1 with isWaveformLoading := true }
    match decoded with
    | Except.ok b =>
        ({ st2 with
            audioBuffer := some b
            filename := some name
            durationRef := b.duration
            progress := 0
            isWaveformLoading := false }, none)
    | Except.error _ =>
        ({ st2 with isWaveformLoading := false }, none)

/-- `updateProgress`, invoked from a `requestAnimationFrame` tick at device time
`now` (`context.currentTime`).  Returns the new state together with the list of
`progressupdate` events dispatched during the tick. -/
def updateProgress (st : EngineState) (now : ℚ) : EngineState × List ℚ :=
  if !st.hasContext || st.durationRef = 0 then
    ({ st with animationFrameRef := false }, [])
  else
    let deltaTime := now - st.lastFrameTimeRef
    let pos := st.audioPositionRef + deltaTime * st.playbackRateRef
    let newProgress := min (pos / st.durationRef) 1
    let st1 := { st with lastFrameTimeRef := now, audioPositionRef := pos }
    let emitted := if 1/1000 < |newProgress - st.progress| then [newProgress] else []
    let st2 :=
      if 1/1000 < |newProgress - st.progress| then { st1 with progress := newProgress }
      else st1
    if 1 ≤ newProgress then
      if st.settings.isLooping then
        ({ st2 with audioPositionRef := 0, progress := 0, animationFrameRef := true },
          emitted)
      else
        ({ st2 with
            audioPositionRef := 0
            progress := 0
            isPlaying := false
            animationFrameRef := false }, emitted)
    else
      ({ st2 with animationFrameRef := st.isPlaying }, emitted)

/-- The animation-frame driver: `updateProgress` runs at a tick only if a frame
is currently scheduled (`animationFrameRef.current` non-null); otherwise nothing
runs and nothing is emitted. -/
def tickIfScheduled (st : EngineState) (now : ℚ) : EngineState × List ℚ :=
  if st.animationFrameRef then updateProgress st now else (st, [])

/-! ### Export (`handleSave`) -/

/-- The offline rendering session `handleSave` configures: the
`OfflineAudioContext` dimensions and the parameter values of the offline
source/gain/convolver nodes. -/
structure OfflineExportGraph where
  contextChannels : ℕ
  contextLength : ℕ
  contextSampleRate : ℕ
  sourceRate : ℚ
  masterGainValue : ℚ
  dryGainValue : ℚ
  wetGainValue : ℚ
  convolverBuffer : SampleBuffer
deriving DecidableEq

/-- The graph built from a decoded buffer, the settings snapshot, and the loaded
impulse response: `outputLength = Math.ceil(audioBuffer.length /
settings.playbackRate)`; `new OfflineAudioContext(numberOfChannels,
outputLength, sampleRate)`; `source.playbackRate.value = playbackRate`;
`masterGain = volume / 100`; `dryGain = 1 - reverbLevel / 100`;
`wetGain = reverbLevel / 100`. -/
def handleSaveGraph (buf : SampleBuffer) (ir : SampleBuffer)
    (s : EngineSettings) : OfflineExportGraph :=
  { contextChannels := buf.numberOfChannels
    contextLength := (⌈(buf.length : ℚ) / s.playbackRate⌉).toNat
    contextSampleRate := buf.sampleRate
    sourceRate := s.playbackRate
    masterGainValue := s.volume / 100
    dryGainValue := 1 - s.reverbLevel / 100
    wetGainValue := s.reverbLevel / 100
    convolverBuffer := ir }

/-- `handleSave` up to the rendering step: `if (!audioBuffer ||
!nodes.reverb?.buffer) return;` and otherwise the offline graph above. -/
def handleSave (st : EngineState) : Option OfflineExportGraph :=
  match st.audioBuffer, st.reverbBuffer with
  | some buf, some ir => some (handleSaveGraph buf ir st.settings)
  | _, _ => none

/-- Semantics of `OfflineAudioContext.startRendering()`, as guaranteed by the
Web Audio specification: the rendered buffer has exactly the channel count,
frame count and sample rate the context was constructed with (its sample
contents depend on the DSP graph and stay abstract here). -/
def RendersTo (g : OfflineExportGraph) (out : SampleBuffer) : Prop :=
  out.numberOfChannels = g.contextChannels ∧ out.length = g.contextLength ∧
    out.sampleRate = g.contextSampleRate

/-! ### Output strategies (Linux media-element bridge vs direct Web Audio) -/

/-- Effective master gain on the direct output path:
`nodes.gain.gain.value = settings.volume / 100` (no clamping). -/
def directMasterGain (volume : ℚ) : ℚ := volume / 100

/-- Effective element volume on the Linux bridge path:
`linuxAudioRef.current.volume = Math.min(settings.volume / 100, 1)` (the
`HTMLMediaElement.volume` property only accepts [0, 1]). -/
def linuxElementVolume (volume : ℚ) : ℚ := min (volume / 100) 1

/-- The at-most-one-concurrent-playback invariant: either no source unit is
started, or exactly one is, and it is the one the hook tracks. -/
def AtMostOneSource (st : EngineState) : Prop :=
  st.started = [] ∨ ∃ i, st.started = [i] ∧ st.tracked = some i

/-! ### Concrete fixtures used by witnesses and counterexamples -/

/-- A tiny decoded buffer: one channel, three frames, 8 kHz. -/
def bufW : SampleBuffer := { channels := [[0, 0, 0]], sampleRate := 8000, length := 3 }

/-- A loaded impulse response. -/
def irW : SampleBuffer := { channels := [[1]], sampleRate := 8000, length := 1 }

/-- A rendered buffer with one channel, four frames, 8 kHz. -/
def outW : SampleBuffer := { channels := [[0, 0, 0, 0]], sampleRate := 8000, length := 4 }

/-- A stereo buffer with samples that exercise clipping and both signs. -/
def bufX : SampleBuffer :=
  { channels := [[1/2, -1], [0, 2]], sampleRate := 8000, length := 2 }

/-- Engine with a context but nothing decoded yet. -/
def stNothing : EngineState := { initialState with hasContext := true }

/-- Engine stopped with `bufW` loaded. -/
def stLoaded : EngineState :=
  { initialState with
    hasContext := true
    audioBuffer := some bufW
    reverbBuffer := some irW
    durationRef := 10 }

/-- Engine playing `bufW` through source unit 0. -/
def stPlaying : EngineState :=
  { stLoaded with
    isPlaying := true
    tracked := some 0
    started := [0]
    nextId := 1
    animationFrameRef := true
    playbackRateRef := 1 }

/-- Playing engine one tick away from the end of the buffer, loop disabled. -/
def stNearEnd : EngineState :=
  { stPlaying with
    audioPositionRef := 9
    lastFrameTimeRef := 0
    settings.isLooping := false }

/-- Engine about to export with rate 3/4. -/
def stSave : EngineState := { stLoaded with settings.playbackRate := 3/4 }

/-! ## Theorems -/

/-- Claim C10: on the Linux bridge path the effective output volume is
`min(volume/100, 1)`, so every volume in (100, 110] yields unit gain, while the
direct path's master gain is the unclamped `volume/100`; hence the two output
strategies produce different effective loudness for every volume above 100. -/
theorem linux_volume_clamp_divergence (v : ℚ) (h1 : 100 < v) (h2 : v ≤ 110) :
    linuxElementVolume v = 1 ∧ directMasterGain v = v / 100 ∧
      linuxElementVolume v ≠ directMasterGain v := by
  have hv : (1 : ℚ) ≤ v / 100 := by linarith
  refine ⟨min_eq_right hv, rfl, ?_⟩
  rw [linuxElementVolume, directMasterGain, min_eq_right hv]
  intro h
  have : v = 100 := by field_simp at h; linarith
  linarith

/-- Witness for C10 at volume 105. -/
theorem linux_volume_clamp_divergence_witness :
    (100 : ℚ) < 105 ∧ (105 : ℚ) ≤ 110 ∧
      (linuxElementVolume 105 = 1 ∧ directMasterGain 105 = 105 / 100 ∧
        linuxElementVolume 105 ≠ directMasterGain 105) :=
  ⟨by norm_num, by norm_num,
    linux_volume_clamp_divergence 105 (by norm_num) (by norm_num)⟩

/-- Claim C2: `setReverbLevel` sets the wet-leg gain to `reverbLevel/100` and
the dry-leg gain to `1 - reverbLevel/100` in the same update, so the weights sum
to exactly 1; the offline export graph of `handleSave` satisfies the same
complementarity for the same settings. -/
theorem reverb_mix_complementary (st : EngineState) (l : ℚ)
    (hc : st.hasContext = true) (h0 : 0 ≤ l) (h1 : l ≤ 100) :
    (setReverbLevel st l).reverbGainValue = l / 100 ∧
    (setReverbLevel st l).reverbGainValue + (setReverbLevel st l).dryGainValue = 1 ∧
    ∀ buf ir : SampleBuffer,
      (handleSaveGraph buf ir (setReverbLevel st l).settings).wetGainValue = l / 100 ∧
      (handleSaveGraph buf ir (setReverbLevel st l).settings).wetGainValue +
        (handleSaveGraph buf ir (setReverbLevel st l).settings).dryGainValue = 1 := by
  refine ⟨?_, ?_, ?_⟩ <;> simp [setReverbLevel, handleSaveGraph, hc] <;> ring

/-- Witness for C2 at reverb level 40. -/
theorem reverb_mix_complementary_witness :
    stNothing.hasContext = true ∧ (0 : ℚ) ≤ 40 ∧ (40 : ℚ) ≤ 100 ∧
      ((setReverbLevel stNothing 40).reverbGainValue = 40 / 100 ∧
        (setReverbLevel stNothing 40).reverbGainValue +
          (setReverbLevel stNothing 40).dryGainValue = 1 ∧
        ∀ buf ir : SampleBuffer,
          (handleSaveGraph buf ir (setReverbLevel stNothing 40).settings).wetGainValue
              = 40 / 100 ∧
            (handleSaveGraph buf ir (setReverbLevel stNothing 40).settings).wetGainValue +
              (handleSaveGraph buf ir (setReverbLevel stNothing 40).settings).dryGainValue
              = 1) :=
  ⟨rfl, by norm_num, by norm_num,
    reverb_mix_complementary stNothing 40 rfl (by norm_num) (by norm_num)⟩

/-- Claim C8 as stated is false in one respect: with nothing loaded, `playAudio`
is indeed a guarded no-op (state untouched, no source unit, nothing thrown),
but no "nothing loaded" condition is surfaced to the caller — the async
function resolves with `undefined` (here: the surfaced value is `none`). -/
theorem playAudio_nothing_loaded_counterexample :
    stNothing.audioBuffer = none ∧ stNothing.isPlaying = false ∧
      playAudio stNothing 0 0 = (stNothing, none) :=
  ⟨rfl, rfl, rfl⟩

/-- Claim C8 (amended): calling `playAudio` with no sample buffer loaded is a
silent no-op — the state (including the transport and the source-unit list) is
unchanged, no exception propagates, and nothing is surfaced to the caller. -/
theorem playAudio_nothing_loaded (st : EngineState) (now t : ℚ)
    (h : st.audioBuffer = none) : playAudio st now t = (st, none) := by
  simp [playAudio, h]

/-- Witness for C8 (amended) at the loaded-context, no-buffer state. -/
theorem playAudio_nothing_loaded_witness :
    stNothing.audioBuffer = none ∧ playAudio stNothing 1 2 = (stNothing, none) :=
  ⟨rfl, playAudio_nothing_loaded stNothing 1 2 rfl⟩

/-- Claim C5 as stated is false: with a buffer loaded, `handleWaveformClick`
invokes `playAudio` unconditionally, so a seek issued while Stopped starts
playback immediately instead of only recording the position. -/
theorem seek_while_stopped_counterexample :
    stLoaded.isPlaying = false ∧
      (handleWaveformClick stLoaded 0 (1/2)).1.isPlaying = true :=
  ⟨rfl, rfl⟩

/-- Claim C5 (amended): a seek issued while Stopped records the clicked
fraction, and then: with no buffer loaded it changes nothing else (playback does
not start); with a loaded buffer it starts playback immediately at offset
`f * duration` (rather than waiting for a subsequent toggle/play). -/
theorem seek_while_stopped (st : EngineState) (now f : ℚ)
    (hstop : st.isPlaying = false) :
    (st.audioBuffer = none →
      handleWaveformClick st now f = ({ st with progress := f }, none)) ∧
    (st.hasContext = true → ∀ b, st.audioBuffer = some b →
      (handleWaveformClick st now f).1.isPlaying = true ∧
      (handleWaveformClick st now f).1.progress = f ∧
      (handleWaveformClick st now f).1.audioPositionRef = f * st.durationRef) := by
  constructor
  · intro h
    simp [handleWaveformClick, playAudio, h]
  · intro hc b hb
    simp [handleWaveformClick, playAudio, stopAudio, hc, hb]

/-- Witness for C5 (amended): seeking to 1/2 while Stopped with `bufW` loaded
starts playback at `1/2 * durationRef`. -/
theorem seek_while_stopped_witness :
    stLoaded.isPlaying = false ∧ stLoaded.hasContext = true ∧
      stLoaded.audioBuffer = some bufW ∧
      (handleWaveformClick stLoaded 0 (1/2)).1.isPlaying = true ∧
      (handleWaveformClick stLoaded 0 (1/2)).1.audioPositionRef =
        1/2 * stLoaded.durationRef :=
  ⟨rfl, rfl, rfl,
    ((seek_while_stopped stLoaded 0 (1/2) rfl).2 rfl bufW rfl).1,
    ((seek_while_stopped stLoaded 0 (1/2) rfl).2 rfl bufW rfl).2.2⟩

/-- Claim C7 as stated is false in one respect: `handleFileChange` calls
`stopAudio()` before attempting the decode, so a decode failure while Playing
leaves the transport Stopped — an observable engine state change. -/
theorem decode_failure_counterexample :
    stPlaying.isPlaying = true ∧
      (handleFileChange stPlaying "song.mp3" (Except.error "decode failed")).1.isPlaying
        = false :=
  ⟨rfl, rfl⟩

/-- Claim C7 (amended): if decoding fails, the previously loaded buffer,
filename, duration and position are retained and the loading flag is cleared;
the error is caught inside the handler (nothing propagates past the engine
boundary, the caller sees a normal resolution) — but playback has been stopped
before the decode attempt, and the error is only logged, not surfaced. -/
theorem decode_failure_retains_buffer (st : EngineState) (name e : String)
    (hc : st.hasContext = true) :
    (handleFileChange st name (Except.error e)).1.audioBuffer = st.audioBuffer ∧
    (handleFileChange st name (Except.error e)).1.filename = st.filename ∧
    (handleFileChange st name (Except.error e)).1.durationRef = st.durationRef ∧
    (handleFileChange st name (Except.error e)).1.progress = st.progress ∧
    (handleFileChange st name (Except.error e)).1.isWaveformLoading = false ∧
    (handleFileChange st name (Except.error e)).1.isPlaying = false ∧
    (handleFileChange st name (Except.error e)).2 = none := by
  simp [handleFileChange, stopAudio, hc]

/-- Witness for C7 (amended) at the playing state. -/
theorem decode_failure_retains_buffer_witness :
    stPlaying.hasContext = true ∧
      (handleFileChange stPlaying "song.mp3" (Except.error "bad")).1.audioBuffer =
        stPlaying.audioBuffer ∧
      (handleFileChange stPlaying "song.mp3" (Except.error "bad")).1.isPlaying = false :=
  ⟨rfl, (decode_failure_retains_buffer stPlaying "song.mp3" "bad" rfl).1,
    (decode_failure_retains_buffer stPlaying "song.mp3" "bad" rfl).2.2.2.2.2.1⟩

/-- After `stopAudio` no source unit remains started (given the invariant
held before: the only possibly-started unit is the tracked one, and
`stopAudio` stops and releases exactly that one). -/
theorem stopAudio_started_nil (st : EngineState) (h : AtMostOneSource st) :
    (stopAudio st).started = [] := by
  rcases h with h | ⟨i, hs, ht⟩
  · unfold stopAudio
    cases htr : st.tracked <;> simp [h]
  · simp [stopAudio, ht, hs]

/-- `stopAudio` preserves the at-most-one-source invariant. -/
theorem stopAudio_atMostOne (st : EngineState) (h : AtMostOneSource st) :
    AtMostOneSource (stopAudio st) :=
  Or.inl (stopAudio_started_nil st h)

/-- `playAudio` preserves the at-most-one-source invariant. -/
theorem playAudio_atMostOne (st : EngineState) (now t : ℚ)
    (h : AtMostOneSource st) : AtMostOneSource (playAudio st now t).1 := by
  by_cases hg : (!st.hasContext || st.audioBuffer.isNone) = true
  · simpa [playAudio, hg] using h
  · right
    refine ⟨st.nextId, ?_, ?_⟩
    · show (playAudio st now t).1.started = [st.nextId]
      simp [playAudio, hg, stopAudio_started_nil st h]
      rfl
    · show (playAudio st now t).1.tracked = some st.nextId
      simp [playAudio, hg, stopAudio]

/-- Claim C3: at most one source unit is ever active — `stopAudio` and
`playAudio` preserve the invariant, two `playAudio` calls in succession leave
at most one started unit, and a successful `playAudio` leaves exactly the
freshly created unit started (the previous one was stopped and released
first). -/
theorem at_most_one_source_unit (st : EngineState) (n1 t1 n2 t2 : ℚ)
    (h : AtMostOneSource st) :
    AtMostOneSource (stopAudio st) ∧
    AtMostOneSource (playAudio st n1 t1).1 ∧
    (playAudio (playAudio st n1 t1).1 n2 t2).1.started.length ≤ 1 ∧
    (st.hasContext = true → ∀ b, st.audioBuffer = some b →
      (playAudio st n1 t1).1.started = [st.nextId]) := by
  have h2 := playAudio_atMostOne st n1 t1 h
  have h3 := playAudio_atMostOne (playAudio st n1 t1).1 n2 t2 h2
  refine ⟨stopAudio_atMostOne st h, h2, ?_, ?_⟩
  · rcases h3 with h3 | ⟨i, hs, _⟩
    · simp [h3]
    · simp [hs]
  · intro hc b hb
    have hg : (!st.hasContext || st.audioBuffer.isNone) = false := by
      simp [hc, hb]
    simp [playAudio, hg, stopAudio_started_nil st h]
    rfl

/-- Witness for C3 starting from the loaded, stopped state. -/
theorem at_most_one_source_unit_witness :
    AtMostOneSource stLoaded ∧
      (playAudio (playAudio stLoaded 0 0).1 1 1).1.started.length ≤ 1 ∧
      (playAudio stLoaded 0 0).1.started = [stLoaded.nextId] :=
  ⟨Or.inl rfl, (at_most_one_source_unit stLoaded 0 0 1 1 (Or.inl rfl)).2.2.1,
    (at_most_one_source_unit stLoaded 0 0 1 1 (Or.inl rfl)).2.2.2 rfl bufW rfl⟩

/-- Claim C1: for a loaded buffer with N frames and playback rate r in
[0.65, 1.35], the offline context `handleSave` configures has length
`Math.ceil(N / r)`, and the buffer `startRendering` yields therefore has
exactly `⌈N / r⌉` frames — the export reflects the time-stretched duration. -/
theorem export_length_time_stretched (st : EngineState) (g : OfflineExportGraph)
    (buf out : SampleBuffer)
    (hbuf : st.audioBuffer = some buf)
    (hsave : handleSave st = some g)
    (hr1 : 65/100 ≤ st.settings.playbackRate)
    (hr2 : st.settings.playbackRate ≤ 135/100)
    (hrender : RendersTo g out) :
    (out.length : ℤ) = ⌈(buf.length : ℚ) / st.settings.playbackRate⌉ := by
  have hr0 : (0 : ℚ) < st.settings.playbackRate :=
    lt_of_lt_of_le (by norm_num) hr1
  unfold handleSave at hsave
  rw [hbuf] at hsave
  cases hir : st.reverbBuffer with
  | none => rw [hir] at hsave; simp at hsave
  | some ir =>
    rw [hir] at hsave
    simp only [Option.some.injEq] at hsave
    have hlen : out.length = g.contextLength := hrender.2.1
    rw [← hsave] at hlen
    rw [hlen]
    show ((⌈(buf.length : ℚ) / st.settings.playbackRate⌉).toNat : ℤ) = _
    rw [Int.toNat_of_nonneg]
    exact Int.ceil_nonneg (div_nonneg (Nat.cast_nonneg _) hr0.le)

/-- Witness for C1: 3 frames at rate 3/4 render to ⌈3/(3/4)⌉ = 4 frames. -/
theorem export_length_time_stretched_witness :
    stSave.audioBuffer = some bufW ∧
      handleSave stSave = some (handleSaveGraph bufW irW stSave.settings) ∧
      (65/100 : ℚ) ≤ stSave.settings.playbackRate ∧
      stSave.settings.playbackRate ≤ 135/100 ∧
      RendersTo (handleSaveGraph bufW irW stSave.settings) outW ∧
      (outW.length : ℤ) = ⌈(bufW.length : ℚ) / stSave.settings.playbackRate⌉ := by
  have hrate : stSave.settings.playbackRate = 3/4 := rfl
  have h4 : ⌈(bufW.length : ℚ) / stSave.settings.playbackRate⌉ = 4 := by
    rw [hrate]
    norm_num [bufW]
  have hrender : RendersTo (handleSaveGraph bufW irW stSave.settings) outW := by
    refine ⟨rfl, ?_, rfl⟩
    show outW.length = (⌈(bufW.length : ℚ) / stSave.settings.playbackRate⌉).toNat
    rw [h4]
    rfl
  exact ⟨rfl, rfl, by rw [hrate]; norm_num, by rw [hrate]; norm_num, hrender,
    export_length_time_stretched stSave _ bufW outW rfl rfl
      (by rw [hrate]; norm_num) (by rw [hrate]; norm_num) hrender⟩

/-- Claim C4: an `updateProgress` tick advances the position accumulator by
exactly the device-clock delta times the playback rate in effect at the tick —
a rate installed by `setPlaybackRate` after playback started is the one used
(read through `playbackRateRef`, not captured at start). -/
theorem progress_clock_fresh_rate (st : EngineState) (now r : ℚ)
    (hc : st.hasContext = true) (hd : 0 < st.durationRef)
    (hp : st.isPlaying = true)
    (hlt : st.audioPositionRef + (now - st.lastFrameTimeRef) * r < st.durationRef) :
    (updateProgress (setPlaybackRate st r) now).1.audioPositionRef =
      st.audioPositionRef + (now - st.lastFrameTimeRef) * r := by
  have hne : st.durationRef ≠ 0 := ne_of_gt hd
  have hlt1 : (st.audioPositionRef + (now - st.lastFrameTimeRef) * r) / st.durationRef < 1 :=
    (div_lt_one hd).mpr hlt
  have hnotle :
      ¬ (1 : ℚ) ≤ min ((st.audioPositionRef + (now - st.lastFrameTimeRef) * r) / st.durationRef) 1 :=
    not_le.mpr (min_lt_iff.mpr (Or.inl hlt1))
  simp [updateProgress, setPlaybackRate, hc, hne, hnotle]
  split_ifs <;> rfl

/-- Witness for C4: with duration 10, a tick of 2 s at a freshly set rate 6/5
advances the accumulator by 12/5. -/
theorem progress_clock_fresh_rate_witness :
    stPlaying.hasContext = true ∧ (0 : ℚ) < stPlaying.durationRef ∧
      stPlaying.isPlaying = true ∧
      stPlaying.audioPositionRef + (2 - stPlaying.lastFrameTimeRef) * (6/5) <
        stPlaying.durationRef ∧
      (updateProgress (setPlaybackRate stPlaying (6/5)) 2).1.audioPositionRef =
        stPlaying.audioPositionRef + (2 - stPlaying.lastFrameTimeRef) * (6/5) := by
  have h1 : (0 : ℚ) < stPlaying.durationRef := by norm_num [stPlaying, stLoaded]
  have h2 : stPlaying.audioPositionRef + (2 - stPlaying.lastFrameTimeRef) * (6/5) <
      stPlaying.durationRef := by
    norm_num [stPlaying, stLoaded, initialState]
  exact ⟨rfl, h1, rfl, h2, progress_clock_fresh_rate stPlaying 2 (6/5) rfl h1 rfl h2⟩

/-- Claim C6: with looping disabled, the tick on which the position reaches the
end of the buffer transitions the transport to Stopped (it was Playing, so the
transition happens exactly then), resets the position to 0, cancels the
scheduled animation frame, and afterwards the driver runs no further ticks, so
no further progress events are emitted. -/
theorem end_of_buffer_stops_once (st : EngineState) (now : ℚ)
    (hc : st.hasContext = true) (hd : 0 < st.durationRef)
    (hloop : st.settings.isLooping = false) (hp : st.isPlaying = true)
    (hend : st.durationRef ≤
      st.audioPositionRef + (now - st.lastFrameTimeRef) * st.playbackRateRef) :
    (updateProgress st now).1.isPlaying = false ∧
    (updateProgress st now).1.progress = 0 ∧
    (updateProgress st now).1.audioPositionRef = 0 ∧
    (updateProgress st now).1.animationFrameRef = false ∧
    ∀ t, tickIfScheduled (updateProgress st now).1 t = ((updateProgress st now).1, []) := by
  have hne : st.durationRef ≠ 0 := ne_of_gt hd
  have hge : (1 : ℚ) ≤
      min ((st.audioPositionRef + (now - st.lastFrameTimeRef) * st.playbackRateRef) /
        st.durationRef) 1 :=
    le_min ((one_le_div hd).mpr hend) le_rfl
  have key : (updateProgress st now).1.isPlaying = false ∧
      (updateProgress st now).1.progress = 0 ∧
      (updateProgress st now).1.audioPositionRef = 0 ∧
      (updateProgress st now).1.animationFrameRef = false := by
    simp [updateProgress, hc, hne, hge, hloop]
  exact ⟨key.1, key.2.1, key.2.2.1, key.2.2.2,
    fun t => by simp [tickIfScheduled, key.2.2.2]⟩

/-- Witness for C6 at the near-end playing state ticked past the end. -/
theorem end_of_buffer_stops_once_witness :
    stNearEnd.hasContext = true ∧ (0 : ℚ) < stNearEnd.durationRef ∧
      stNearEnd.settings.isLooping = false ∧ stNearEnd.isPlaying = true ∧
      stNearEnd.durationRef ≤
        stNearEnd.audioPositionRef +
          (2 - stNearEnd.lastFrameTimeRef) * stNearEnd.playbackRateRef ∧
      ((updateProgress stNearEnd 2).1.isPlaying = false ∧
        (updateProgress stNearEnd 2).1.progress = 0) := by
  have h1 : (0 : ℚ) < stNearEnd.durationRef := by
    norm_num [stNearEnd, stPlaying, stLoaded]
  have h2 : stNearEnd.durationRef ≤
      stNearEnd.audioPositionRef +
        (2 - stNearEnd.lastFrameTimeRef) * stNearEnd.playbackRateRef := by
    norm_num [stNearEnd, stPlaying, stLoaded, initialState]
  have h := end_of_buffer_stops_once stNearEnd 2 rfl h1 rfl rfl h2
  exact ⟨rfl, h1, rfl, rfl, h2, h.1, h.2.1⟩


/-- The WAV header is 44 bytes. -/
theorem wavHeader_length (b : SampleBuffer) : (wavHeader b).length = 44 := rfl

set_option maxHeartbeats 1000000 in
/-- The header bytes written out explicitly, field by field. -/
theorem wavHeader_explicit (b : SampleBuffer) :
    wavHeader b =
      [82, 73, 70, 70,
       (b.length * b.numberOfChannels * 2 + 44 - 8) % 256,
       (b.length * b.numberOfChannels * 2 + 44 - 8) / 256 % 256,
       (b.length * b.numberOfChannels * 2 + 44 - 8) / 65536 % 256,
       (b.length * b.numberOfChannels * 2 + 44 - 8) / 16777216 % 256,
       87, 65, 86, 69,
       102, 109, 116, 32,
       16, 0, 0, 0,
       1, 0,
       b.numberOfChannels % 256, b.numberOfChannels / 256 % 256,
       b.sampleRate % 256, b.sampleRate / 256 % 256,
       b.sampleRate / 65536 % 256, b.sampleRate / 16777216 % 256,
       b.sampleRate * b.numberOfChannels * 2 % 256,
       b.sampleRate * b.numberOfChannels * 2 / 256 % 256,
       b.sampleRate * b.numberOfChannels * 2 / 65536 % 256,
       b.sampleRate * b.numberOfChannels * 2 / 16777216 % 256,
       b.numberOfChannels * 2 % 256, b.numberOfChannels * 2 / 256 % 256,
       16, 0,
       100, 97, 116, 97,
       (b.length * b.numberOfChannels * 2 + 44 - 44) % 256,
       (b.length * b.numberOfChannels * 2 + 44 - 44) / 256 % 256,
       (b.length * b.numberOfChannels * 2 + 44 - 44) / 65536 % 256,
       (b.length * b.numberOfChannels * 2 + 44 - 44) / 16777216 % 256] := rfl

/-- A flatMap over blocks of constant length `m` has `m` bytes per entry. -/
theorem flatMap_length_const {α β : Type} (f : α → List β) (m : ℕ)
    (hf : ∀ a, (f a).length = m) (l : List α) :
    (l.flatMap f).length = l.length * m := by
  induction l with
  | nil => simp
  | cons a t ih =>
    simp only [List.flatMap_cons, List.length_append, hf, ih, List.length_cons]
    ring

/-- Each encoded sample is two bytes. -/
theorem i16le_length (v : ℤ) : (i16le v).length = 2 := rfl

/-- `interleave` has one entry per frame and channel. -/
theorem interleave_length (b : SampleBuffer) :
    (interleave b).length = b.length * b.numberOfChannels := by
  rw [interleave,
    flatMap_length_const _ b.numberOfChannels
      (fun j => by simp [SampleBuffer.numberOfChannels]) _]
  simp

/-- The sample section of the WAV file holds two bytes per interleaved sample. -/
theorem wav_data_length (b : SampleBuffer) :
    ((interleave b).flatMap (fun s => i16le (quantizeSample s))).length
      = b.length * b.numberOfChannels * 2 := by
  rw [flatMap_length_const _ 2 (fun s => i16le_length _) _, interleave_length]

/-- Dropping `m * k` elements from a flatMap over blocks of constant length `m`
drops the first `k` blocks. -/
theorem flatMap_drop_mul {α β : Type} (f : α → List β) (m : ℕ)
    (hf : ∀ a, (f a).length = m) (l : List α) :
    ∀ k : ℕ, (l.flatMap f).drop (m * k) = (l.drop k).flatMap f := by
  induction l with
  | nil => intro k; simp
  | cons a t ih =>
    intro k
    cases k with
    | zero => simp
    | succ k' =>
      have hm : m * (k' + 1) = (f a).length + m * k' := by rw [hf a]; ring
      rw [List.flatMap_cons, hm, List.drop_append, List.drop_succ_cons]
      exact ih k'

/-- The two bytes at data offset `2 * k` encode the `k`-th interleaved sample. -/
theorem wav_sample_bytes (b : SampleBuffer) (k : ℕ)
    (hk : k < (interleave b).length) :
    ((audioBufferToWav b).drop (44 + 2 * k)).take 2 =
      i16le (quantizeSample ((interleave b).getD k 0)) := by
  rw [audioBufferToWav]
  rw [show 44 + 2 * k = (wavHeader b).length + 2 * k from by rw [wavHeader_length]]
  rw [List.drop_append, flatMap_drop_mul _ 2 (fun _ => i16le_length _) _ k,
    List.drop_eq_getElem_cons hk, List.flatMap_cons,
    List.getD_eq_getElem _ _ hk]
  rw [← i16le_length (quantizeSample (interleave b)[k]), List.take_left]

/-- Entry `i * numberOfChannels + c` of the interleaved sequence is sample `i`
of channel `c`. -/
theorem interleave_getD (b : SampleBuffer) (i c : ℕ)
    (hi : i < b.length) (hc : c < b.numberOfChannels) :
    (interleave b).getD (i * b.numberOfChannels + c) 0 =
      (b.channels.getD c []).getD i 0 := by
  have hfl : ∀ j : ℕ, ((fun j => b.channels.map (fun ch => ch.getD j 0)) j).length =
      b.numberOfChannels := fun j => by
    simp [SampleBuffer.numberOfChannels]
  have hgd : (interleave b).getD (i * b.numberOfChannels + c) 0 =
      ((interleave b)[i * b.numberOfChannels + c]?).getD 0 := by
    simp [List.getD]
  rw [hgd]
  have hidx : i * b.numberOfChannels + c = b.numberOfChannels * i + c := by ring
  rw [hidx, ← List.getElem?_drop]
  rw [show (interleave b).drop (b.numberOfChannels * i) =
    ((List.range b.length).drop i).flatMap
      (fun j => b.channels.map (fun ch => ch.getD j 0)) from
    flatMap_drop_mul _ b.numberOfChannels hfl _ i]
  have hi' : i < (List.range b.length).length := by simpa using hi
  rw [List.drop_eq_getElem_cons hi', List.flatMap_cons]
  have hcl : c < (b.channels.map (fun ch =>
      ch.getD ((List.range b.length)[i]) 0)).length := by
    simpa [SampleBuffer.numberOfChannels] using hc
  rw [List.getElem?_append_left hcl, List.getElem?_map]
  have hc' : c < b.channels.length := hc
  simp [List.getElem_range, List.getElem?_eq_getElem hc', List.getD]

/-- Each quantized sample is a valid signed 16-bit value: clipping to [-1, 1]
before scaling keeps it within [-32768, 32767]. -/
theorem quantizeSample_bounds (s : ℚ) :
    -32768 ≤ quantizeSample s ∧ quantizeSample s ≤ 32767 := by
  have hc1 : (-1 : ℚ) ≤ clipSample s := le_max_left _ _
  have hc2 : clipSample s ≤ 1 := max_le (by norm_num) (min_le_left _ _)
  unfold quantizeSample ratTrunc
  by_cases h : clipSample s < 0
  · rw [if_pos h]
    have he : clipSample s * 32768 < 0 := mul_neg_of_neg_of_pos h (by norm_num)
    rw [if_pos he]
    constructor
    · have hle : -(clipSample s * 32768) ≤ ((32768 : ℤ) : ℚ) := by push_cast; nlinarith
      have hf := Int.floor_le_floor hle
      rw [Int.floor_intCast] at hf
      omega
    · have h0 : (0 : ℚ) ≤ -(clipSample s * 32768) := by linarith
      have := Int.floor_nonneg.mpr h0
      omega
  · rw [if_neg h]
    push_neg at h
    have he : ¬ clipSample s * 32767 < 0 :=
      not_lt.mpr (mul_nonneg h (by norm_num))
    rw [if_neg he]
    constructor
    · have : (0 : ℤ) ≤ ⌊clipSample s * 32767⌋ :=
        Int.floor_nonneg.mpr (mul_nonneg h (by norm_num))
      omega
    · have hle : clipSample s * 32767 ≤ ((32767 : ℤ) : ℚ) := by push_cast; nlinarith
      have hf := Int.floor_le_floor hle
      rw [Int.floor_intCast] at hf
      exact hf

/-- Claim C9: `audioBufferToWav` produces a canonical WAV byte array: 44-byte
header plus `length * channels * 2` data bytes; `RIFF`/`WAVE` tags; a `fmt `
chunk declaring PCM (audio format 1), the buffer's channel count and sample
rate, and 16 bits per sample; a `data` chunk whose declared and actual size is
`length * channels * 2` bytes of channel-interleaved little-endian signed
16-bit samples, each input sample clipped to [-1, 1] before quantization (so
every stored value fits in a signed 16-bit word). -/
theorem audioBufferToWav_canonical (b : SampleBuffer)
    (hch : b.numberOfChannels < 65536)
    (hrate : b.sampleRate < 4294967296)
    (hsize : b.length * b.numberOfChannels * 2 < 4294967296) :
    (audioBufferToWav b).length = 44 + b.length * b.numberOfChannels * 2 ∧
    (audioBufferToWav b).take 4 = asciiBytes "RIFF" ∧
    ((audioBufferToWav b).drop 8).take 4 = asciiBytes "WAVE" ∧
    ((audioBufferToWav b).drop 12).take 4 = asciiBytes "fmt " ∧
    readU16 (audioBufferToWav b) 20 = 1 ∧
    readU16 (audioBufferToWav b) 22 = b.numberOfChannels ∧
    readU32 (audioBufferToWav b) 24 = b.sampleRate ∧
    readU16 (audioBufferToWav b) 34 = 16 ∧
    ((audioBufferToWav b).drop 36).take 4 = asciiBytes "data" ∧
    readU32 (audioBufferToWav b) 40 = b.length * b.numberOfChannels * 2 ∧
    (∀ i c, i < b.length → c < b.numberOfChannels →
      ((audioBufferToWav b).drop (44 + 2 * (i * b.numberOfChannels + c))).take 2 =
        i16le (quantizeSample ((b.channels.getD c []).getD i 0))) ∧
    (∀ s : ℚ, -32768 ≤ quantizeSample s ∧ quantizeSample s ≤ 32767) := by
  refine ⟨?_, ?_, ?_, ?_, ?_, ?_, ?_, ?_, ?_, ?_, ?_, quantizeSample_bounds⟩
  · rw [audioBufferToWav, List.length_append, wavHeader_length, wav_data_length]
  · rw [audioBufferToWav, wavHeader_explicit]
    rfl
  · rw [audioBufferToWav, wavHeader_explicit]
    rfl
  · rw [audioBufferToWav, wavHeader_explicit]
    rfl
  · rw [audioBufferToWav, wavHeader_explicit]
    rfl
  · rw [audioBufferToWav, wavHeader_explicit]
    show b.numberOfChannels % 256 + 256 * (b.numberOfChannels / 256 % 256) =
      b.numberOfChannels
    omega
  · rw [audioBufferToWav, wavHeader_explicit]
    show b.sampleRate % 256 + 256 * (b.sampleRate / 256 % 256) +
      65536 * (b.sampleRate / 65536 % 256) +
      16777216 * (b.sampleRate / 16777216 % 256) = b.sampleRate
    omega
  · rw [audioBufferToWav, wavHeader_explicit]
    rfl
  · rw [audioBufferToWav, wavHeader_explicit]
    rfl
  · rw [audioBufferToWav, wavHeader_explicit]
    show (b.length * b.numberOfChannels * 2 + 44 - 44) % 256 +
      256 * ((b.length * b.numberOfChannels * 2 + 44 - 44) / 256 % 256) +
      65536 * ((b.length * b.numberOfChannels * 2 + 44 - 44) / 65536 % 256) +
      16777216 * ((b.length * b.numberOfChannels * 2 + 44 - 44) / 16777216 % 256) =
      b.length * b.numberOfChannels * 2
    omega
  · intro i c hi hc
    have hk : i * b.numberOfChannels + c < (interleave b).length := by
      rw [interleave_length]
      calc i * b.numberOfChannels + c < i * b.numberOfChannels + b.numberOfChannels := by
            omega
        _ = (i + 1) * b.numberOfChannels := by ring
        _ ≤ b.length * b.numberOfChannels := Nat.mul_le_mul_right _ hi
    rw [wav_sample_bytes b _ hk, interleave_getD b i c hi hc]

/-- Witness for C9 on a concrete stereo buffer with clipping. -/
theorem audioBufferToWav_canonical_witness :
    bufX.numberOfChannels < 65536 ∧ bufX.sampleRate < 4294967296 ∧
      bufX.length * bufX.numberOfChannels * 2 < 4294967296 ∧
      readU16 (audioBufferToWav bufX) 22 = bufX.numberOfChannels ∧
      readU32 (audioBufferToWav bufX) 40 = bufX.length * bufX.numberOfChannels * 2 := by
  have h1 : bufX.numberOfChannels < 65536 := by
    norm_num [bufX, SampleBuffer.numberOfChannels]
  have h2 : bufX.sampleRate < 4294967296 := by norm_num [bufX]
  have h3 : bufX.length * bufX.numberOfChannels * 2 < 4294967296 := by
    norm_num [bufX, SampleBuffer.numberOfChannels]
  have h := audioBufferToWav_canonical bufX h1 h2 h3
  exact ⟨h1, h2, h3, h.2.2.2.2.2.1, h.2.2.2.2.2.2.2.2.2.1⟩

end LilaPlayer
